import Mathlib

/-!
Verification development for the usage-tui result cache and normalized
result model (`usage_tui/cache.py`, `usage_tui/providers/base.py`).

The Python code is shallowly embedded:
* enumerations (`ProviderName`, `WindowPeriod`) become Lean inductives
  (note: `base.py` lists `claude`, `openai`, `copilot`, `codex`; the
  `openrouter` member is referenced by `cache.py`, `config.py`, `tui.py`
  and is included so the TTL table of `cache.py` is representable);
* a Python `datetime` becomes a wall-clock reading in whole seconds plus
  an optional UTC offset in seconds (`none` models a naive datetime);
  `dt.replace(tzinfo=timezone.utc)` keeps the wall clock and forces the
  offset to 0, while comparison of aware datetimes compares instants
  (wall minus offset);
* the `raw` payload (`dict[str, Any]` of nested dicts / lists / scalars)
  becomes the inductive `RawVal`, with dicts as ordered key/value lists;
* numeric `float` fields are modelled as rationals (exact at every
  concrete input appearing below);
* the cache's two tiers become explicit state: a memory map and a disk
  map from `(provider, window)` keys; the string key
  `f"{provider.value}:{window.value}"` used by the Python dict is in
  bijection with the pair (the `.value` strings are distinct and
  colon-free), which is proved where the key strings matter
  (`invalidate`'s split/compare logic);
* a disk file is `missing`, `corrupt` (any content whose read raises
  `OSError`/`IOError`/`json.JSONDecodeError`/`ValueError`, i.e. the
  exceptions `_load_from_disk` converts to a miss), or `good r` (a file
  whose content parses and validates back to `r`); the `open`/`write` of
  `_save_to_disk` (whose failures are swallowed by its `except` clause)
  gets an explicit `WriteOutcome` on `set`: success, a failure raised
  before `open(path, "w")` truncated the target (file untouched), or a
  failure raised after truncation (leaving a truncated/partial — i.e.
  corrupt — file at the written key); in every case the function
  returns normally.
-/

/-- Supported provider names (`ProviderName` in `providers/base.py`, plus
the `openrouter` member referenced throughout the repository). -/
inductive ProviderName where
  | claude
  | openai
  | copilot
  | codex
  | openrouter
deriving DecidableEq, Fintype

/-- Supported time windows (`WindowPeriod` in `providers/base.py`). -/
inductive WindowPeriod where
  | day1
  | day7
  | day30
deriving DecidableEq, Fintype

/-- The `.value` string of a `ProviderName` member. -/
def ProviderName.value : ProviderName → String
  | .claude => "claude"
  | .openai => "openai"
  | .copilot => "copilot"
  | .codex => "codex"
  | .openrouter => "openrouter"

/-- The `.value` string of a `WindowPeriod` member. -/
def WindowPeriod.value : WindowPeriod → String
  | .day1 => "1d"
  | .day7 => "7d"
  | .day30 => "30d"

/-- A Python `datetime`: a wall-clock reading in whole seconds together
with an optional UTC offset in seconds (`none` = naive). -/
structure PyDatetime where
  wall : Int
  off : Option Int
deriving DecidableEq

/-- The instant an aware datetime denotes (UTC seconds); a naive datetime
has no offset to subtract. -/
def PyDatetime.instant (d : PyDatetime) : Int :=
  d.wall - d.off.getD 0

/-- `dt.replace(tzinfo=timezone.utc)`: keep the wall-clock fields, set the
offset to 0 (no conversion of the instant). -/
def PyDatetime.replaceUtc (d : PyDatetime) : PyDatetime :=
  { wall := d.wall, off := some 0 }

/-- Normalized usage metrics (`UsageMetrics` in `providers/base.py`);
numeric fields modelled as exact rationals. -/
structure UsageMetrics where
  cost : Option Rat := none
  requests : Option Int := none
  input_tokens : Option Int := none
  output_tokens : Option Int := none
  remaining : Option Rat := none
  limit : Option Rat := none
  reset_at : Option PyDatetime := none
deriving DecidableEq

/-- `UsageMetrics.usage_percent`: `None` if `limit` is `None` or `== 0`;
otherwise `((limit - remaining) / limit) * 100` when `remaining` is not
`None`, else `None`. -/
def UsageMetrics.usage_percent (m : UsageMetrics) : Option Rat :=
  match m.limit with
  | none => none
  | some l =>
    if l = 0 then none
    else
      match m.remaining with
      | none => none
      | some r => some (((l - r) / l) * 100)

/-- A value inside the `raw` payload: nested dicts (ordered key/value
lists), lists, and scalar leaves. -/
inductive RawVal where
  | str (s : String)
  | num (n : Int)
  | boolean (b : Bool)
  | null
  | arr (items : List RawVal)
  | obj (entries : List (String × RawVal))

/-- `k.lower()` for the ASCII range, applied characterwise. -/
def pyLower (s : String) : String :=
  ⟨s.data.map Char.toLower⟩

/-- The `sensitive_keys` set in `ResultCache._sanitize_raw`. -/
def SENSITIVE_KEYS : List String :=
  ["token", "key", "secret", "password", "authorization"]

/-- `k.lower() in sensitive_keys`. -/
def isSensitiveKey (k : String) : Bool :=
  SENSITIVE_KEYS.contains (pyLower k)

mutual

/-- The inner `clean` of `ResultCache._sanitize_raw`: on a dict, redact
the value under each sensitive key and recurse into the others; on a
list, recurse into each item; leave every other value unchanged. -/
def clean : RawVal → RawVal
  | .obj entries => .obj (cleanObj entries)
  | .arr items => .arr (cleanList items)
  | .str s => .str s
  | .num n => .num n
  | .boolean b => .boolean b
  | .null => .null

/-- `clean` mapped over the items of a list (the list comprehension in
`_sanitize_raw`). -/
def cleanList : List RawVal → List RawVal
  | [] => []
  | x :: xs => clean x :: cleanList xs

/-- `clean` applied to a dict's entries (the dict comprehension in
`_sanitize_raw`): `k: "[REDACTED]" if k.lower() in sensitive_keys else
clean(v)`. -/
def cleanObj : List (String × RawVal) → List (String × RawVal)
  | [] => []
  | (k, v) :: rest =>
      (k, if isSensitiveKey k then .str "[REDACTED]" else clean v) :: cleanObj rest

end

/-- `ResultCache._sanitize_raw(raw)`: `clean` applied to the top-level
`raw` dict. -/
def sanitize_raw (raw : List (String × RawVal)) : List (String × RawVal) :=
  cleanObj raw

mutual

/-- Whether a value contains, at any depth, a dict entry whose key is
sensitive (used to state when sanitization must preserve `raw` exactly). -/
def hasSensitiveVal : RawVal → Bool
  | .obj entries => hasSensitiveObj entries
  | .arr items => hasSensitiveList items
  | _ => false

/-- `hasSensitiveVal` over the items of a list. -/
def hasSensitiveList : List RawVal → Bool
  | [] => false
  | x :: xs => hasSensitiveVal x || hasSensitiveList xs

/-- `hasSensitiveVal` over a dict's entries, also checking each key. -/
def hasSensitiveObj : List (String × RawVal) → Bool
  | [] => false
  | (k, v) :: rest => isSensitiveKey k || hasSensitiveVal v || hasSensitiveObj rest

end

/-- Normalized result from any provider (`ProviderResult` in
`providers/base.py`), with `raw` as an ordered key/value list. -/
structure ProviderResult where
  provider : ProviderName
  window : WindowPeriod
  metrics : UsageMetrics
  updated_at : PyDatetime
  raw : List (String × RawVal) := []
  error : Option String := none

/-- `ProviderResult.is_error`: `self.error is not None`. -/
def ProviderResult.is_error (r : ProviderResult) : Bool :=
  r.error.isSome

/-- `ResultCache.DEFAULT_TTL`. -/
def DEFAULT_TTL : Int := 120

/-- `ResultCache.PROVIDER_TTLS` as a partial map (absent members fall back
to `DEFAULT_TTL` through `dict.get`). -/
def PROVIDER_TTLS : ProviderName → Option Int
  | .claude => some 60
  | .openai => some 180
  | .openrouter => some 180
  | .copilot => some 300
  | .codex => none

/-- `self.PROVIDER_TTLS.get(provider, self.DEFAULT_TTL)`. -/
def ttlForProvider (p : ProviderName) : Int :=
  (PROVIDER_TTLS p).getD DEFAULT_TTL

/-- A cached provider result with metadata (`CacheEntry` in `cache.py`). -/
structure CacheEntry where
  result : ProviderResult
  cached_at : PyDatetime
  ttl_seconds : Int

/-- `CacheEntry.is_expired`: `now > cached_at.replace(tzinfo=utc) +
timedelta(seconds=ttl_seconds)` with `now = datetime.now(timezone.utc)`
(an aware comparison, hence a comparison of instants). `now` is passed as
the current UTC instant in seconds. -/
def CacheEntry.is_expired (e : CacheEntry) (now : Int) : Bool :=
  decide (e.cached_at.replaceUtc.instant + e.ttl_seconds < now)

/-- One on-disk cache file: absent, unreadable/unparseable/invalid (any
content for which the read raises one of the exceptions caught by
`_load_from_disk`), or a file that parses back to a `ProviderResult`. -/
inductive DiskFile where
  | missing
  | corrupt
  | good (result : ProviderResult)

/-- The two cache tiers of a `ResultCache`, keyed by `(provider, window)`
(in bijection with the string key `f"{provider.value}:{window.value}"`). -/
structure CacheState where
  memory : ProviderName × WindowPeriod → Option CacheEntry
  disk : ProviderName × WindowPeriod → DiskFile

/-- Outcome of the `open`/`write` performed by `_save_to_disk`: success;
a failure raised before `open(path, "w")` truncated the target (e.g.
`open` itself raising `OSError`), leaving the file as it was; or a
failure raised after truncation (e.g. the write or flush failing),
leaving a truncated/partial — i.e. corrupt — file at the written key.
Both failure modes are swallowed by the `except` clause. -/
inductive WriteOutcome where
  | ok
  | failedEarly
  | failedMid
deriving DecidableEq

namespace ResultCache

/-- `ResultCache._load_from_disk`: missing file → `None`; raised
read/parse/validation error → `None`; otherwise return the parsed result
if `ignore_ttl` or if its age (`now` minus the result's own `updated_at`
with `tzinfo` replaced by UTC) is at most the provider's TTL. -/
def load_from_disk (s : CacheState) (p : ProviderName) (w : WindowPeriod)
    (ignore_ttl : Bool) (now : Int) : Option ProviderResult :=
  match s.disk (p, w) with
  | .missing => none
  | .corrupt => none
  | .good r =>
    if ignore_ttl then some r
    else if now - r.updated_at.replaceUtc.instant ≤ ttlForProvider p then some r
    else none

/-- `ResultCache.get`: memory tier first (returning the entry if not
expired, evicting it if expired), then the disk tier with the TTL check.
Returns the result (if any) and the post-call state. -/
def get (s : CacheState) (p : ProviderName) (w : WindowPeriod) (now : Int) :
    Option ProviderResult × CacheState :=
  match s.memory (p, w) with
  | some entry =>
    if entry.is_expired now = false then (some entry.result, s)
    else
      let s2 : CacheState :=
        { s with memory := fun k => if k = (p, w) then none else s.memory k }
      (load_from_disk s2 p w false now, s2)
  | none => (load_from_disk s p w false now, s)

/-- `ResultCache._save_to_disk`: deep-copy the result, sanitize its `raw`,
serialize, write the per-key file; an `OSError`/`IOError` is swallowed —
if raised before `open(path, "w")` truncated the file, the file is as it
was; if raised after truncation, the written key is left with a
truncated/partial (corrupt) file. -/
def save_to_disk (s : CacheState) (r : ProviderResult) (outcome : WriteOutcome) :
    CacheState :=
  match outcome with
  | .ok =>
    { s with
        disk := fun k =>
          if k = (r.provider, r.window) then .good { r with raw := sanitize_raw r.raw }
          else s.disk k }
  | .failedEarly => s
  | .failedMid =>
    { s with
        disk := fun k =>
          if k = (r.provider, r.window) then .corrupt else s.disk k }

/-- `ResultCache.set`: always store a fresh `CacheEntry` (with `cached_at
= datetime.now(timezone.utc)`, i.e. offset 0, and `ttl_seconds` from the
TTL table) into the memory tier; persist to disk only when the result is
not an error. -/
def set (s : CacheState) (r : ProviderResult) (now : Int) (outcome : WriteOutcome) :
    CacheState :=
  let entry : CacheEntry :=
    { result := r
      cached_at := { wall := now, off := some 0 }
      ttl_seconds := ttlForProvider r.provider }
  let s1 : CacheState :=
    { s with
        memory := fun k =>
          if k = (r.provider, r.window) then some entry else s.memory k }
  if r.is_error = false then save_to_disk s1 r outcome else s1

/-- `ResultCache.get_last_good`: the disk-read path with `ignore_ttl=True`. -/
def get_last_good (s : CacheState) (p : ProviderName) (w : WindowPeriod)
    (now : Int) : Option ProviderResult :=
  load_from_disk s p w true now

/-- The per-key filter of `ResultCache.invalidate`: `(provider is None or
p == provider.value) and (window is None or w == window.value)`, where `p`
and `w` are the two halves of the stored string key. -/
def matchesFilter (provider : Option ProviderName) (window : Option WindowPeriod)
    (k : ProviderName × WindowPeriod) : Bool :=
  (match provider with
   | none => true
   | some pv => k.1.value == pv.value) &&
  (match window with
   | none => true
   | some wv => k.2.value == wv.value)

/-- `ResultCache.invalidate`: with no arguments clear the whole memory
tier; otherwise delete the memory entries whose key matches the filter.
The disk tier is not touched. -/
def invalidate (s : CacheState) (provider : Option ProviderName)
    (window : Option WindowPeriod) : CacheState :=
  if provider = none ∧ window = none then
    { s with memory := fun _ => none }
  else
    { s with
        memory := fun k =>
          if matchesFilter provider window k then none else s.memory k }

end ResultCache

mutual

/-- Sanitization is idempotent on values. -/
theorem clean_idem : ∀ (v : RawVal), clean (clean v) = clean v
  | .str s => rfl
  | .num n => rfl
  | .boolean b => rfl
  | .null => rfl
  | .arr items => by
      simp only [clean]
      exact congrArg RawVal.arr (cleanList_idem items)
  | .obj entries => by
      simp only [clean]
      exact congrArg RawVal.obj (cleanObj_idem entries)

/-- Sanitization is idempotent on lists of values. -/
theorem cleanList_idem : ∀ (l : List RawVal), cleanList (cleanList l) = cleanList l
  | [] => rfl
  | x :: xs => by
      simp only [cleanList]
      exact congr (congrArg List.cons (clean_idem x)) (cleanList_idem xs)

/-- Sanitization is idempotent on dict entries. -/
theorem cleanObj_idem :
    ∀ (l : List (String × RawVal)), cleanObj (cleanObj l) = cleanObj l
  | [] => rfl
  | (k, v) :: rest => by
      by_cases hk : isSensitiveKey k = true
      · simp only [cleanObj, hk, if_pos, cleanObj_idem rest]
      · simp only [cleanObj, hk, ite_false, Bool.false_eq_true, clean_idem v,
          cleanObj_idem rest]

end

mutual

/-- A value containing no sensitive keys is left unchanged by `clean`. -/
theorem clean_of_not_sensitive :
    ∀ (v : RawVal), hasSensitiveVal v = false → clean v = v
  | .str s, _ => rfl
  | .num n, _ => rfl
  | .boolean b, _ => rfl
  | .null, _ => rfl
  | .arr items, h => by
      simp only [hasSensitiveVal] at h
      simp only [clean]
      exact congrArg RawVal.arr (cleanList_of_not_sensitive items h)
  | .obj entries, h => by
      simp only [hasSensitiveVal] at h
      simp only [clean]
      exact congrArg RawVal.obj (cleanObj_of_not_sensitive entries h)

/-- A list of values containing no sensitive keys is left unchanged. -/
theorem cleanList_of_not_sensitive :
    ∀ (l : List RawVal), hasSensitiveList l = false → cleanList l = l
  | [], _ => rfl
  | x :: xs, h => by
      simp only [hasSensitiveList, Bool.or_eq_false_iff] at h
      simp only [cleanList]
      exact congr (congrArg List.cons (clean_of_not_sensitive x h.1))
        (cleanList_of_not_sensitive xs h.2)

/-- Dict entries containing no sensitive keys are left unchanged. -/
theorem cleanObj_of_not_sensitive :
    ∀ (l : List (String × RawVal)), hasSensitiveObj l = false → cleanObj l = l
  | [], _ => rfl
  | (k, v) :: rest, h => by
      simp only [hasSensitiveObj, Bool.or_eq_false_iff] at h
      simp only [cleanObj, h.1.1, ite_false, Bool.false_eq_true]
      exact congr (congrArg List.cons (congrArg (Prod.mk k)
        (clean_of_not_sensitive v h.1.2))) (cleanObj_of_not_sensitive rest h.2)

end

/-- `cleanList` is `List.map clean`. -/
theorem cleanList_eq_map : ∀ (l : List RawVal), cleanList l = l.map clean
  | [] => rfl
  | x :: xs => by simp only [cleanList, List.map_cons, cleanList_eq_map xs]

/-- C3: `_sanitize_raw` replaces the value under every dict key whose
lowercased text is exactly one of `token`, `key`, `secret`, `password`,
`authorization` with the marker `"[REDACTED]"` at every nesting depth —
the cons equation together with the equations for nested dicts
(`clean (.obj …) = .obj (sanitize_raw …)`) and lists pushes the same
redacting map through every level — leaves every other value (including
non-dict/non-list leaves) unchanged, maps the spec's scenario payload and
a two-level nested payload as required, and is idempotent. -/
theorem c3_sanitize_raw_spec :
    (∀ raw : List (String × RawVal), sanitize_raw (sanitize_raw raw) = sanitize_raw raw)
    ∧ (∀ v : RawVal, clean (clean v) = clean v)
    ∧ (∀ (k : String) (v : RawVal) (rest : List (String × RawVal)),
        sanitize_raw ((k, v) :: rest)
          = (k, if isSensitiveKey k then RawVal.str "[REDACTED]" else clean v)
              :: sanitize_raw rest)
    ∧ sanitize_raw [] = []
    ∧ (∀ entries : List (String × RawVal),
        clean (.obj entries) = .obj (sanitize_raw entries))
    ∧ (∀ items : List RawVal, clean (.arr items) = .arr (items.map clean))
    ∧ (∀ s, clean (.str s) = .str s)
    ∧ (∀ n, clean (.num n) = .num n)
    ∧ (∀ b, clean (.boolean b) = .boolean b)
    ∧ clean .null = .null
    ∧ isSensitiveKey "authorization" = true
    ∧ isSensitiveKey "Token" = true
    ∧ isSensitiveKey "amount" = false
    ∧ isSensitiveKey "tokens" = false
    ∧ sanitize_raw [("authorization", RawVal.str "Bearer xyz"), ("amount", RawVal.num 5)]
        = [("authorization", RawVal.str "[REDACTED]"), ("amount", RawVal.num 5)]
    ∧ sanitize_raw
        [("outer", RawVal.obj [("token", RawVal.str "s3cr3t"), ("amount", RawVal.num 5)]),
         ("items", RawVal.arr [RawVal.obj [("password", RawVal.str "hunter2")]])]
      = [("outer", RawVal.obj [("token", RawVal.str "[REDACTED]"), ("amount", RawVal.num 5)]),
         ("items", RawVal.arr [RawVal.obj [("password", RawVal.str "[REDACTED]")]])] := by
  refine ⟨fun raw => cleanObj_idem raw, clean_idem, ?_, rfl, ?_, ?_, fun s => rfl,
    fun n => rfl, fun b => rfl, rfl, by decide, by decide, by decide, by decide,
    ?_, ?_⟩
  · intro k v rest
    simp only [sanitize_raw, cleanObj]
  · intro entries
    simp only [clean, sanitize_raw]
  · intro items
    simp only [clean, cleanList_eq_map]
  · simp only [sanitize_raw, cleanObj,
      show isSensitiveKey "authorization" = true from by decide,
      show isSensitiveKey "amount" = false from by decide, ite_true, ite_false,
      Bool.false_eq_true, clean]
  · simp only [sanitize_raw, cleanObj, clean, cleanList,
      show isSensitiveKey "outer" = false from by decide,
      show isSensitiveKey "token" = true from by decide,
      show isSensitiveKey "amount" = false from by decide,
      show isSensitiveKey "items" = false from by decide,
      show isSensitiveKey "password" = true from by decide,
      ite_true, ite_false, Bool.false_eq_true]

/-- C5 counterexample: a negative limit is not excluded by the code —
`limit = -100`, `remaining = 0` yields `usage_percent = 100`, not
undefined as the claim states for negative limits. -/
theorem c5_counterexample :
    ({ limit := some (-100), remaining := some 0 } : UsageMetrics).usage_percent
      = some 100
    ∧ (-100 : Rat) < 0 := by
  constructor
  · norm_num [UsageMetrics.usage_percent]
  · norm_num

/-- C5 (amended): `usage_percent` is undefined exactly when `limit` is 0
or absent or `remaining` is absent (a negative limit is not excluded);
otherwise it equals `(limit - remaining) / limit * 100` exactly, with no
clamping (e.g. `remaining = -50, limit = 100` passes through as 150), and
`remaining = 38, limit = 100` yields 62. -/
theorem c5_usage_percent_amended (m : UsageMetrics) :
    (m.usage_percent = none
      ↔ (m.limit = none ∨ m.limit = some 0 ∨ m.remaining = none))
    ∧ (m.usage_percent
          = some (((m.limit.getD 0 - m.remaining.getD 0) / m.limit.getD 0) * 100)
        ∨ m.limit = none ∨ m.limit = some 0 ∨ m.remaining = none)
    ∧ ({ limit := some 100, remaining := some 38 } : UsageMetrics).usage_percent
        = some 62
    ∧ ({ limit := some 100, remaining := some (-50) } : UsageMetrics).usage_percent
        = some 150 := by
  refine ⟨?_, ?_, by norm_num [UsageMetrics.usage_percent],
    by norm_num [UsageMetrics.usage_percent]⟩
  · rcases hL : m.limit with _ | l
    · simp [UsageMetrics.usage_percent, hL]
    · rcases hR : m.remaining with _ | q
      · simp [UsageMetrics.usage_percent, hL, hR]
      · by_cases h0 : l = 0
        · simp [UsageMetrics.usage_percent, hL, hR, h0]
        · simp [UsageMetrics.usage_percent, hL, hR, h0]
  · rcases hL : m.limit with _ | l
    · right; left; rfl
    · rcases hR : m.remaining with _ | q
      · right; right; right; rfl
      · by_cases h0 : l = 0
        · right; right; left; simp [hL, h0]
        · left
          simp [UsageMetrics.usage_percent, hL, hR, h0]

/-- C9 counterexample: a Result whose `error` is the empty string is an
error result according to the code (`error is not None`), contradicting
the claim that an empty-string `error` is not an error result. -/
theorem c9_counterexample :
    ProviderResult.is_error
      { provider := ProviderName.claude, window := WindowPeriod.day7,
        metrics := {}, updated_at := { wall := 0, off := none },
        error := some "" } = true := rfl

/-- C9 (amended): `is_error` is true exactly when the `error` field is
present (not `None`); a Result whose `error` is absent is not an error
result, and any Result with a present `error` message — the empty string
included — is an error result. -/
theorem c9_is_error_amended (r : ProviderResult) :
    (r.is_error = true ↔ r.error ≠ none)
    ∧ (r.is_error = false ↔ r.error = none)
    ∧ ProviderResult.is_error
        { provider := ProviderName.claude, window := WindowPeriod.day7,
          metrics := {}, updated_at := { wall := 0, off := none },
          error := none } = false
    ∧ ProviderResult.is_error
        { provider := ProviderName.claude, window := WindowPeriod.day7,
          metrics := {}, updated_at := { wall := 0, off := none },
          error := some "boom" } = true := by
  refine ⟨?_, ?_, rfl, rfl⟩ <;>
    rcases hE : r.error with _ | msg <;> simp [ProviderResult.is_error, hE]

/-- C8 counterexample: a `cached_at` carrying a +01:00 offset (wall
reading 60, instant −3540) with `ttl_seconds = 60` is, at `now = 30`,
expired under the claim's same-instant reading (30 > −3540 + 60) yet
`is_expired` returns `false` (the offset is discarded, not converted). -/
theorem c8_counterexample :
    CacheEntry.is_expired
      { result := { provider := ProviderName.claude, window := WindowPeriod.day7,
                    metrics := {}, updated_at := { wall := 0, off := none } },
        cached_at := { wall := 60, off := some 3600 },
        ttl_seconds := 60 } 30 = false
    ∧ (30 : Int) > ({ wall := 60, off := some 3600 } : PyDatetime).instant + 60 := by
  constructor
  · rfl
  · decide

/-- C8 (amended): `is_expired` holds exactly when `now > cached_at +
ttl_seconds` with `cached_at`'s wall-clock reading reinterpreted as UTC
(`tzinfo` is replaced, not converted); this coincides with the
same-instant comparison whenever `cached_at` is naive or already UTC, but
a non-UTC-aware `cached_at` does not denote its own instant in the
comparison. -/
theorem c8_is_expired_amended (e : CacheEntry) (now : Int) :
    (e.is_expired now = true ↔ now > e.cached_at.wall + e.ttl_seconds)
    ∧ ((e.cached_at.off = none ∨ e.cached_at.off = some 0) →
        (e.is_expired now = true ↔ now > e.cached_at.instant + e.ttl_seconds)) := by
  constructor
  · simp [CacheEntry.is_expired, PyDatetime.replaceUtc, PyDatetime.instant]
  · intro h
    have hinst : e.cached_at.instant = e.cached_at.wall := by
      rcases h with h | h <;> simp [PyDatetime.instant, h]
    rw [hinst]
    simp [CacheEntry.is_expired, PyDatetime.replaceUtc, PyDatetime.instant]

/-- C8 amended witness: at a UTC (offset 0) `cached_at` with wall reading
100 and TTL 60, expiry at `now = 200` agrees with the instant reading. -/
theorem c8_is_expired_amended_witness :
    (({ wall := 100, off := some 0 } : PyDatetime).off = none
      ∨ ({ wall := 100, off := some 0 } : PyDatetime).off = some 0)
    ∧ (CacheEntry.is_expired
        { result := { provider := ProviderName.claude, window := WindowPeriod.day7,
                      metrics := {}, updated_at := { wall := 0, off := none } },
          cached_at := { wall := 100, off := some 0 },
          ttl_seconds := 60 } 200 = true
        ↔ (200 : Int) > ({ wall := 100, off := some 0 } : PyDatetime).instant + 60) :=
  ⟨Or.inr rfl,
    (c8_is_expired_amended
      { result := { provider := ProviderName.claude, window := WindowPeriod.day7,
                    metrics := {}, updated_at := { wall := 0, off := none } },
        cached_at := { wall := 100, off := some 0 },
        ttl_seconds := 60 } 200).2 (Or.inr rfl)⟩

/-- C2: `set` of an error Result always writes it into the memory tier
with `cached_at = now` (a UTC-aware timestamp) and `ttl_seconds` equal to
the TTL for the result's provider, and leaves the entire disk tier — in
particular the file for that `(source, window)` key — exactly as it was. -/
theorem c2_error_results_memory_only (s : CacheState) (r : ProviderResult)
    (t : Int) (outcome : WriteOutcome) (herr : r.is_error = true) :
    (ResultCache.set s r t outcome).memory (r.provider, r.window)
      = some { result := r, cached_at := { wall := t, off := some 0 },
               ttl_seconds := ttlForProvider r.provider }
    ∧ (ResultCache.set s r t outcome).disk = s.disk := by
  simp only [ResultCache.set, herr]
  constructor
  · simp
  · simp

/-- C2 witness: an error result for the openai provider at time 7. -/
theorem c2_error_results_memory_only_witness :
    ProviderResult.is_error
      { provider := ProviderName.openai, window := WindowPeriod.day30,
        metrics := {}, updated_at := { wall := 5, off := none },
        error := some "boom" } = true
    ∧ (ResultCache.set
        { memory := fun _ => none, disk := fun _ => DiskFile.missing }
        { provider := ProviderName.openai, window := WindowPeriod.day30,
          metrics := {}, updated_at := { wall := 5, off := none },
          error := some "boom" } 7 WriteOutcome.ok).disk
      = ({ memory := fun _ => none, disk := fun _ => DiskFile.missing } : CacheState).disk :=
  ⟨rfl,
    (c2_error_results_memory_only
      { memory := fun _ => none, disk := fun _ => DiskFile.missing }
      { provider := ProviderName.openai, window := WindowPeriod.day30,
        metrics := {}, updated_at := { wall := 5, off := none },
        error := some "boom" } 7 WriteOutcome.ok rfl).2⟩

/-- C10: `set` mutates at most the memory entry and the disk file of the
result's own `(provider, window)` key; every other key's memory entry and
disk file are exactly as before the call. -/
theorem c10_set_frame (s : CacheState) (r : ProviderResult) (t : Int)
    (outcome : WriteOutcome) (k : ProviderName × WindowPeriod)
    (hk : k ≠ (r.provider, r.window)) :
    (ResultCache.set s r t outcome).memory k = s.memory k
    ∧ (ResultCache.set s r t outcome).disk k = s.disk k := by
  by_cases he : r.is_error = false <;>
    rcases outcome <;>
      simp [ResultCache.set, ResultCache.save_to_disk, he, hk]

/-- C10 witness: setting a claude result leaves the (openai, 1d) key's
tiers unchanged. -/
theorem c10_set_frame_witness :
    ((ProviderName.openai, WindowPeriod.day1)
        ≠ (ProviderName.claude, WindowPeriod.day7))
    ∧ (ResultCache.set
        { memory := fun _ => none, disk := fun _ => DiskFile.missing }
        { provider := ProviderName.claude, window := WindowPeriod.day7,
          metrics := {}, updated_at := { wall := 0, off := some 0 } } 0
        WriteOutcome.failedMid).memory
          (ProviderName.openai, WindowPeriod.day1)
      = ({ memory := fun _ => none, disk := fun _ => DiskFile.missing } : CacheState).memory
          (ProviderName.openai, WindowPeriod.day1) :=
  ⟨by decide,
    (c10_set_frame
      { memory := fun _ => none, disk := fun _ => DiskFile.missing }
      { provider := ProviderName.claude, window := WindowPeriod.day7,
        metrics := {}, updated_at := { wall := 0, off := some 0 } } 0
      WriteOutcome.failedMid
      (ProviderName.openai, WindowPeriod.day1) (by decide)).1⟩

/-- C6: disk problems never surface — with the memory tier empty for the
key, a missing or corrupt (unreadable/unparseable/invalid) disk file makes
`get` and `get_last_good` return `None` rather than raise; a `set` whose
disk write fails still returns normally with the memory tier updated; a
failure raised before `open(path, "w")` truncated the target leaves the
disk tier exactly as it was, and any swallowed failure leaves the written
key's file either untouched or truncated (corrupt) — which subsequent
reads treat as a miss, per the first two conjuncts. -/
theorem c6_disk_failures_are_misses (s : CacheState) (p : ProviderName)
    (w : WindowPeriod) (now : Int) (r : ProviderResult) (t : Int)
    (outcome : WriteOutcome)
    (hd : s.disk (p, w) = DiskFile.missing ∨ s.disk (p, w) = DiskFile.corrupt)
    (hm : s.memory (p, w) = none)
    (hfail : outcome ≠ WriteOutcome.ok) :
    (ResultCache.get s p w now).1 = none
    ∧ ResultCache.get_last_good s p w now = none
    ∧ (ResultCache.set s r t outcome).memory (r.provider, r.window)
        = some { result := r, cached_at := { wall := t, off := some 0 },
                 ttl_seconds := ttlForProvider r.provider }
    ∧ (ResultCache.set s r t WriteOutcome.failedEarly).disk = s.disk
    ∧ ((ResultCache.set s r t outcome).disk (r.provider, r.window)
          = s.disk (r.provider, r.window)
        ∨ (ResultCache.set s r t outcome).disk (r.provider, r.window)
            = DiskFile.corrupt) := by
  refine ⟨?_, ?_, ?_, ?_, ?_⟩
  · rcases hd with hd | hd <;>
      simp [ResultCache.get, ResultCache.load_from_disk, hm, hd]
  · rcases hd with hd | hd <;>
      simp [ResultCache.get_last_good, ResultCache.load_from_disk, hd]
  · by_cases he : r.is_error = false <;> rcases outcome <;>
      simp [ResultCache.set, ResultCache.save_to_disk, he]
  · by_cases he : r.is_error = false <;>
      simp [ResultCache.set, ResultCache.save_to_disk, he]
  · by_cases he : r.is_error = false
    · rcases outcome with _ | _ | _
      · exact absurd rfl hfail
      · left; simp [ResultCache.set, ResultCache.save_to_disk, he]
      · right; simp [ResultCache.set, ResultCache.save_to_disk, he]
    · left; simp [ResultCache.set, he]

/-- C6 witness: a corrupt file under (claude, 7d) with an empty memory
tier yields `None` from `get`. -/
theorem c6_disk_failures_are_misses_witness :
    (({ memory := fun _ => none, disk := fun _ => DiskFile.corrupt } : CacheState).disk
        (ProviderName.claude, WindowPeriod.day7) = DiskFile.missing
      ∨ ({ memory := fun _ => none, disk := fun _ => DiskFile.corrupt } : CacheState).disk
          (ProviderName.claude, WindowPeriod.day7) = DiskFile.corrupt)
    ∧ ({ memory := fun _ => none, disk := fun _ => DiskFile.corrupt } : CacheState).memory
        (ProviderName.claude, WindowPeriod.day7) = none
    ∧ WriteOutcome.failedMid ≠ WriteOutcome.ok
    ∧ (ResultCache.get
        { memory := fun _ => none, disk := fun _ => DiskFile.corrupt }
        ProviderName.claude WindowPeriod.day7 50).1 = none :=
  ⟨Or.inr rfl, rfl, by decide,
    (c6_disk_failures_are_misses
      { memory := fun _ => none, disk := fun _ => DiskFile.corrupt }
      ProviderName.claude WindowPeriod.day7 50
      { provider := ProviderName.claude, window := WindowPeriod.day7,
        metrics := {}, updated_at := { wall := 0, off := none } } 0
      WriteOutcome.failedMid (Or.inr rfl) rfl (by decide)).1⟩

/-- The `.value` strings of `ProviderName` compare equal exactly when the
members are equal (the string halves of a cache key determine the key). -/
theorem providerValue_inj :
    ∀ a b : ProviderName, a.value = b.value ↔ a = b := by decide

/-- The `.value` strings of `WindowPeriod` compare equal exactly when the
members are equal. -/
theorem windowValue_inj :
    ∀ a b : WindowPeriod, a.value = b.value ↔ a = b := by decide

/-- C7: `invalidate` never modifies the disk tier, removes exactly the
memory entries matching its filter (the filter matches a key exactly when
each given argument equals the corresponding key component), with no
arguments empties the entire memory tier, and a `get_last_good` for a key
whose non-error Result was previously persisted still returns that
persisted (sanitized) value afterwards. -/
theorem c7_invalidate_memory_only (s : CacheState) (pf : Option ProviderName)
    (wf : Option WindowPeriod) (k : ProviderName × WindowPeriod)
    (p : ProviderName) (w : WindowPeriod) (now t : Int) (r : ProviderResult)
    (herr : r.is_error = false) :
    (ResultCache.invalidate s pf wf).disk = s.disk
    ∧ (ResultCache.invalidate s none none).memory k = none
    ∧ (ResultCache.invalidate s pf wf).memory k
        = (if ResultCache.matchesFilter pf wf k then none else s.memory k)
    ∧ (ResultCache.matchesFilter pf wf k = true
        ↔ ((pf = none ∨ pf = some k.1) ∧ (wf = none ∨ wf = some k.2)))
    ∧ ResultCache.get_last_good (ResultCache.invalidate s pf wf) p w now
        = ResultCache.get_last_good s p w now
    ∧ ResultCache.get_last_good
        (ResultCache.invalidate (ResultCache.set s r t WriteOutcome.ok) none none)
        r.provider r.window now
      = some { r with raw := sanitize_raw r.raw } := by
  have hdisk : ∀ (s2 : CacheState) (pf2 : Option ProviderName)
      (wf2 : Option WindowPeriod), (ResultCache.invalidate s2 pf2 wf2).disk = s2.disk := by
    intro s2 pf2 wf2
    by_cases h : pf2 = none ∧ wf2 = none <;> simp [ResultCache.invalidate, h]
  refine ⟨hdisk s pf wf, ?_, ?_, ?_, ?_, ?_⟩
  · simp [ResultCache.invalidate]
  · by_cases h : pf = none ∧ wf = none
    · rcases h with ⟨h1, h2⟩
      subst h1; subst h2
      simp [ResultCache.invalidate, ResultCache.matchesFilter]
    · simp [ResultCache.invalidate, h]
  · rcases pf with _ | pv <;> rcases wf with _ | wv <;>
      simp [ResultCache.matchesFilter, providerValue_inj, windowValue_inj] <;>
      aesop
  · have h2 : (ResultCache.invalidate s pf wf).disk (p, w) = s.disk (p, w) := by
      rw [hdisk s pf wf]
    simp [ResultCache.get_last_good, ResultCache.load_from_disk, h2]
  · have h3 : (ResultCache.set s r t WriteOutcome.ok).disk (r.provider, r.window)
        = DiskFile.good { r with raw := sanitize_raw r.raw } := by
      simp [ResultCache.set, herr, ResultCache.save_to_disk]
    have h4 : (ResultCache.invalidate (ResultCache.set s r t WriteOutcome.ok) none none).disk
          (r.provider, r.window)
        = DiskFile.good { r with raw := sanitize_raw r.raw } := by
      rw [hdisk (ResultCache.set s r t WriteOutcome.ok) none none]; exact h3
    simp [ResultCache.get_last_good, ResultCache.load_from_disk, h4]

/-- C7 witness: after setting a non-error claude result and invalidating
everything, `get_last_good` still serves the persisted sanitized value. -/
theorem c7_invalidate_memory_only_witness :
    ProviderResult.is_error
      { provider := ProviderName.claude, window := WindowPeriod.day7,
        metrics := {}, updated_at := { wall := 0, off := some 0 },
        raw := [("amount", RawVal.num 5)] } = false
    ∧ ResultCache.get_last_good
        (ResultCache.invalidate
          (ResultCache.set
            { memory := fun _ => none, disk := fun _ => DiskFile.missing }
            { provider := ProviderName.claude, window := WindowPeriod.day7,
              metrics := {}, updated_at := { wall := 0, off := some 0 },
              raw := [("amount", RawVal.num 5)] } 0 WriteOutcome.ok)
          none none)
        ProviderName.claude WindowPeriod.day7 500
      = some { provider := ProviderName.claude, window := WindowPeriod.day7,
               metrics := {}, updated_at := { wall := 0, off := some 0 },
               raw := sanitize_raw [("amount", RawVal.num 5)] } :=
  ⟨rfl,
    (c7_invalidate_memory_only
      { memory := fun _ => none, disk := fun _ => DiskFile.missing }
      none none (ProviderName.claude, WindowPeriod.day7)
      ProviderName.claude WindowPeriod.day7 500 0
      { provider := ProviderName.claude, window := WindowPeriod.day7,
        metrics := {}, updated_at := { wall := 0, off := some 0 },
        raw := [("amount", RawVal.num 5)] } rfl).2.2.2.2.2⟩

/-- A disk result whose `updated_at` (wall reading 400, UTC) is 10 minutes
older than the probe time 1000 used in the C4 scenario. -/
def staleResult : ProviderResult :=
  { provider := ProviderName.claude, window := WindowPeriod.day7,
    metrics := {}, updated_at := { wall := 400, off := some 0 } }

/-- A cache state with an empty memory tier and only the stale claude
file on disk. -/
def staleState : CacheState :=
  { memory := fun _ => none
    disk := fun k =>
      if k = (ProviderName.claude, WindowPeriod.day7) then DiskFile.good staleResult
      else DiskFile.missing }

/-- C4: the disk-read path returns a stored Result exactly when the file
parses to it and its age — `now` minus the Result's own `updated_at`
(wall reading reinterpreted as UTC), not any file-system metadata, which
the state does not even record — is at most the provider's TTL;
`get_last_good` is the same read ignoring the TTL; a file 10 minutes old
under claude's 60-second TTL yields `None` from `get` but the value from
`get_last_good`. -/
theorem c4_disk_freshness_from_updated_at (s : CacheState) (p : ProviderName)
    (w : WindowPeriod) (now : Int) (q : ProviderResult) :
    (ResultCache.load_from_disk s p w false now = some q
      ↔ (s.disk (p, w) = DiskFile.good q
          ∧ now - q.updated_at.replaceUtc.instant ≤ ttlForProvider p))
    ∧ (ResultCache.get_last_good s p w now = some q
        ↔ s.disk (p, w) = DiskFile.good q)
    ∧ (ResultCache.get staleState ProviderName.claude WindowPeriod.day7 1000).1 = none
    ∧ ResultCache.get_last_good staleState ProviderName.claude WindowPeriod.day7 1000
        = some staleResult := by
  refine ⟨?_, ?_, rfl, rfl⟩
  · rcases hd : s.disk (p, w) with _ | _ | r0
    · simp [ResultCache.load_from_disk, hd]
    · simp [ResultCache.load_from_disk, hd]
    · by_cases hc : now - r0.updated_at.replaceUtc.instant ≤ ttlForProvider p
      · simp only [ResultCache.load_from_disk, hd, Bool.false_eq_true, if_false,
          if_pos hc, Option.some.injEq]
        constructor
        · intro h; subst h; exact ⟨rfl, hc⟩
        · rintro ⟨h1, _⟩; cases h1; rfl
      · simp only [ResultCache.load_from_disk, hd, Bool.false_eq_true, if_false,
          if_neg hc]
        constructor
        · intro h; cases h
        · rintro ⟨h1, h2⟩; cases h1; exact absurd h2 hc
  · rcases hd : s.disk (p, w) with _ | _ | r0
    · simp [ResultCache.get_last_good, ResultCache.load_from_disk, hd]
    · simp [ResultCache.get_last_good, ResultCache.load_from_disk, hd]
    · simp only [ResultCache.get_last_good, ResultCache.load_from_disk, hd, if_pos,
        Option.some.injEq]
      constructor
      · intro h; subst h; rfl
      · intro h1; cases h1; rfl

/-- C1: for a non-error Result `r` stored via `set` at time `t`, a `get`
for `(r.provider, r.window)` before `r`'s TTL has elapsed returns `r`
itself (field-for-field) from the memory tier; the value held by the disk
tier after the persist is `r` with `raw` sanitized — identical to `r` on
every field but `raw`, and identical on `raw` too whenever `raw` contained
no keys subject to redaction — and a `get` served from the disk tier
(memory invalidated, `updated_at` fresh enough) returns exactly that
sanitized value. -/
theorem c1_set_get_roundtrip (s : CacheState) (r : ProviderResult)
    (t now now2 : Int) (outcome : WriteOutcome)
    (herr : r.is_error = false)
    (hfresh : now ≤ t + ttlForProvider r.provider) :
    (ResultCache.get (ResultCache.set s r t outcome) r.provider r.window now).1
      = some r
    ∧ ResultCache.get_last_good (ResultCache.set s r t WriteOutcome.ok) r.provider r.window now2
        = some { r with raw := sanitize_raw r.raw }
    ∧ (now2 - r.updated_at.replaceUtc.instant ≤ ttlForProvider r.provider →
        (ResultCache.get
            (ResultCache.invalidate (ResultCache.set s r t WriteOutcome.ok) none none)
            r.provider r.window now2).1
          = some { r with raw := sanitize_raw r.raw })
    ∧ ({ r with raw := sanitize_raw r.raw } : ProviderResult).provider = r.provider
    ∧ ({ r with raw := sanitize_raw r.raw } : ProviderResult).window = r.window
    ∧ ({ r with raw := sanitize_raw r.raw } : ProviderResult).metrics = r.metrics
    ∧ ({ r with raw := sanitize_raw r.raw } : ProviderResult).updated_at = r.updated_at
    ∧ ({ r with raw := sanitize_raw r.raw } : ProviderResult).error = r.error
    ∧ (hasSensitiveObj r.raw = false →
        ({ r with raw := sanitize_raw r.raw } : ProviderResult) = r) := by
  have hmem : ∀ outcome2 : WriteOutcome,
      (ResultCache.set s r t outcome2).memory (r.provider, r.window)
        = some { result := r, cached_at := { wall := t, off := some 0 },
                 ttl_seconds := ttlForProvider r.provider } := by
    intro outcome2
    rcases outcome2 <;>
      simp [ResultCache.set, herr, ResultCache.save_to_disk]
  have hnotexp : CacheEntry.is_expired
      { result := r, cached_at := { wall := t, off := some 0 },
        ttl_seconds := ttlForProvider r.provider } now = false := by
    simp [CacheEntry.is_expired, PyDatetime.replaceUtc, PyDatetime.instant]
    omega
  have hdisk : (ResultCache.set s r t WriteOutcome.ok).disk (r.provider, r.window)
      = DiskFile.good { r with raw := sanitize_raw r.raw } := by
    simp [ResultCache.set, herr, ResultCache.save_to_disk]
  refine ⟨?_, ?_, ?_, rfl, rfl, rfl, rfl, rfl, ?_⟩
  · simp [ResultCache.get, hmem outcome, hnotexp]
  · simp [ResultCache.get_last_good, ResultCache.load_from_disk, hdisk]
  · intro hage
    have hinvmem : (ResultCache.invalidate (ResultCache.set s r t WriteOutcome.ok) none none).memory
        (r.provider, r.window) = none := by
      simp [ResultCache.invalidate]
    have hinvdisk : (ResultCache.invalidate (ResultCache.set s r t WriteOutcome.ok) none none).disk
          (r.provider, r.window)
        = DiskFile.good { r with raw := sanitize_raw r.raw } := by
      simp [ResultCache.invalidate]
      exact hdisk
    simp [ResultCache.get, hinvmem, ResultCache.load_from_disk, hinvdisk, hage]
  · intro hclean
    have : sanitize_raw r.raw = r.raw := cleanObj_of_not_sensitive r.raw hclean
    rw [this]

/-- C1 witness: a concrete non-error claude result set at time 0, read at
time 30 (inside the 60-second TTL). -/
theorem c1_set_get_roundtrip_witness :
    ProviderResult.is_error
      { provider := ProviderName.claude, window := WindowPeriod.day7,
        metrics := {}, updated_at := { wall := 20, off := some 0 },
        raw := [("amount", RawVal.num 5)] } = false
    ∧ (30 : Int) ≤ 0 + ttlForProvider ProviderName.claude
    ∧ (ResultCache.get
        (ResultCache.set
          { memory := fun _ => none, disk := fun _ => DiskFile.missing }
          { provider := ProviderName.claude, window := WindowPeriod.day7,
            metrics := {}, updated_at := { wall := 20, off := some 0 },
            raw := [("amount", RawVal.num 5)] } 0 WriteOutcome.ok)
        ProviderName.claude WindowPeriod.day7 30).1
      = some { provider := ProviderName.claude, window := WindowPeriod.day7,
               metrics := {}, updated_at := { wall := 20, off := some 0 },
               raw := [("amount", RawVal.num 5)] } :=
  ⟨rfl, by decide,
    (c1_set_get_roundtrip
      { memory := fun _ => none, disk := fun _ => DiskFile.missing }
      { provider := ProviderName.claude, window := WindowPeriod.day7,
        metrics := {}, updated_at := { wall := 20, off := some 0 },
        raw := [("amount", RawVal.num 5)] } 0 30 500 WriteOutcome.ok rfl (by decide)).1⟩
